import Mathlib

/-!
Verification of the backup/restore engine of the channel-backup bot
(`src/main.js`).  The JavaScript functions are shallowly embedded as pure
Lean functions; the key-value store, the Telegram gateway and the
exception behaviour of remote calls are made explicit (stores are passed
around as values, remote outcomes are supplied as oracles).  Message ids
are natural numbers (the scan loop condition `msgId > 0` keeps them
positive), chat ids are integers, and JavaScript truthiness of the
optional string / size fields is modelled explicitly.
-/

/-- JS truthiness of an optional string field (`undefined`, `null` and
`""` are falsy). -/
def truthyStr : Option String → Bool
  | none => false
  | some s => !s.isEmpty

/-- A Telegram media object: only the fields the engine reads
(`file_id`, `file_size`).  `file_size` is optional in the Bot API. -/
structure TgMedia where
  file_id : String
  file_size : Option Nat := none
deriving DecidableEq

/-- A Telegram message as read by `backupChannelPost`: the content
fields consulted by the recorder.  `photo` is an array of renditions. -/
structure TgMessage where
  chat_id : Int
  message_id : Nat
  date : Nat
  text : Option String := none
  caption : Option String := none
  photo : Option (List TgMedia) := none
  video : Option TgMedia := none
  document : Option TgMedia := none
  audio : Option TgMedia := none
  voice : Option TgMedia := none
  video_note : Option TgMedia := none
  sticker : Option TgMedia := none
  animation : Option TgMedia := none
deriving DecidableEq

/-- A stored backup record, mirroring the JSON object built by
`backupChannelPost` / `backupExistingMessages`; media fields hold the
copied `file_id` (or `null`). -/
structure BackupEntry where
  message_id : Nat
  date : Nat
  text : Option String := none
  caption : Option String := none
  photo : Option String := none
  video : Option String := none
  document : Option String := none
  audio : Option String := none
  voice : Option String := none
  video_note : Option String := none
  sticker : Option String := none
  animation : Option String := none
  backed_up : Bool := true
  auto_backup : Bool := false
  manual_backup : Bool := false
  periodic_backup : Bool := false
  original_exists : Bool := false
deriving DecidableEq

/-- The store's key scheme (`user:<id>`, `backup:<ch>:<msg>`,
`notify:<id>`, `restore_state:<id>`, `restore_temp:<id>:source`,
`manual_backup:<id>`), as a structured type; the string scheme of the
source is injective so the constructors are a faithful rendering. -/
inductive Key where
  | user (uid : String)
  | backup (channelId : Int) (messageId : Nat)
  | notify (uid : String)
  | restoreState (uid : String)
  | restoreTemp (uid : String)
  | manualBackup (uid : String)
deriving DecidableEq

/-- The backup keyspace as an association list, so that the number of
physical entries for a key is observable; `kvPut` overwrites in place
when the key exists (last-write-wins KV semantics). -/
abbrev KVStore := List (Key × BackupEntry)

def kvPut (st : KVStore) (k : Key) (v : BackupEntry) : KVStore :=
  if st.any (fun p => decide (p.1 = k)) then
    st.map (fun p => if p.1 = k then (k, v) else p)
  else st ++ [(k, v)]

def applyPuts (st : KVStore) (ps : List (Key × BackupEntry)) : KVStore :=
  ps.foldl (fun s p => kvPut s p.1 p.2) st

/-- Number of physical entries stored under a key. -/
def countKey (st : KVStore) (k : Key) : Nat :=
  st.countP (fun p => decide (p.1 = k))

/-- The JS `a || b` chain on optional numeric sizes: `undefined` and `0`
are falsy. -/
def orFalsy (a : Option Nat) (b : Nat) : Nat :=
  match a with
  | some n => if n = 0 then b else n
  | none => b

/-- The `?.file_size` access. -/
def jsSize (m : Option TgMedia) : Option Nat := m.bind (·.file_size)

/-- `message.video?.file_size || message.document?.file_size ||
message.audio?.file_size || 0` (main.js:445).  Only these three kinds
are consulted. -/
def fileSizeOf (msg : TgMessage) : Nat :=
  orFalsy (jsSize msg.video) (orFalsy (jsSize msg.document) (orFalsy (jsSize msg.audio) 0))

/-- `message.photo ? message.photo[message.photo.length - 1].file_id :
null` — last (largest) rendition. -/
def photoHandle (p : Option (List TgMedia)) : Option String :=
  p.bind (fun rs => rs.getLast?.map (·.file_id))

/-- The backup record built by `backupChannelPost` (main.js:450). -/
def buildAutoEntry (msg : TgMessage) : BackupEntry :=
  { message_id := msg.message_id
    date := msg.date
    text := msg.text
    caption := msg.caption
    photo := photoHandle msg.photo
    video := msg.video.map (·.file_id)
    document := msg.document.map (·.file_id)
    audio := msg.audio.map (·.file_id)
    voice := msg.voice.map (·.file_id)
    video_note := msg.video_note.map (·.file_id)
    sticker := msg.sticker.map (·.file_id)
    animation := msg.animation.map (·.file_id)
    backed_up := true
    auto_backup := true }

def postKey (msg : TgMessage) : Key := Key.backup msg.chat_id msg.message_id

/-- The observable effects of one `backupChannelPost` call: its returned
result, the store writes it performs and how many owner-notification
fan-outs it triggers. -/
structure PostResult where
  success : Bool
  reason : Option String := none
  puts : List (Key × BackupEntry) := []
  notifyRuns : Nat := 0
deriving DecidableEq

/-- `backupChannelPost` (main.js:440-473): the size guard consults only
`video`/`document`/`audio`; on the non-skip path it unconditionally
writes the entry (no `isMessageBackedUp` check) and then runs the
owner-notification fan-out. -/
def backupChannelPost (msg : TgMessage) : PostResult :=
  if fileSizeOf msg > 25 * 1024 * 1024 then
    { success := false, reason := some "file_too_large" }
  else
    { success := true
      puts := [(postKey msg, buildAutoEntry msg)]
      notifyRuns := 1 }

lemma countKey_append (st st' : KVStore) (k : Key) :
    countKey (st ++ st') k = countKey st k + countKey st' k := by
  simp [countKey, List.countP_append]

lemma any_eq_false_of_countKey_zero {st : KVStore} {k : Key}
    (h : countKey st k = 0) : st.any (fun p => decide (p.1 = k)) = false := by
  rw [List.any_eq_false]
  intro p hp
  rw [countKey, List.countP_eq_zero] at h
  simpa using h p hp

lemma countKey_kvPut_absent {st : KVStore} {k : Key} (v : BackupEntry)
    (h : countKey st k = 0) : countKey (kvPut st k v) k = 1 := by
  rw [kvPut, if_neg (by simp [any_eq_false_of_countKey_zero h])]
  rw [countKey_append, h]
  simp [countKey]

lemma countKey_map_overwrite (st : KVStore) (k : Key) (v : BackupEntry) :
    countKey (st.map (fun p => if p.1 = k then (k, v) else p)) k = countKey st k := by
  induction st with
  | nil => rfl
  | cons p t ih =>
    by_cases h : p.1 = k <;> simp [countKey, List.countP_cons, h] at ih ⊢ <;> omega

lemma countKey_kvPut_present {st : KVStore} {k : Key} (v : BackupEntry)
    (h : countKey st k ≠ 0) : countKey (kvPut st k v) k = countKey st k := by
  have hany : st.any (fun p => decide (p.1 = k)) = true := by
    rw [List.any_eq_true]
    rw [countKey] at h
    obtain ⟨p, hp, hpk⟩ := List.countP_pos_iff.mp (Nat.pos_of_ne_zero h)
    exact ⟨p, hp, hpk⟩
  rw [kvPut, if_pos hany]
  exact countKey_map_overwrite st k v

/-- Example channel post used in the C1 theorems: a plain text post. -/
def textPostMsg : TgMessage :=
  { chat_id := -100123, message_id := 7, date := 1700000000, text := some "hello" }

/-- Example channel post with an oversized photo rendition (26 MiB). -/
def bigPhotoMsg : TgMessage :=
  { chat_id := -100123, message_id := 8, date := 1700000000
    photo := some [⟨"photo_small", some 1024⟩, ⟨"photo_big", some (26 * 1024 * 1024)⟩] }

/-- Example channel post with an oversized video (26 MiB). -/
def bigVideoMsg : TgMessage :=
  { chat_id := -100123, message_id := 9, date := 1700000000
    video := some ⟨"video_big", some (26 * 1024 * 1024)⟩ }

/-- C1 counterexample: `backupChannelPost` never consults
`isMessageBackedUp`, so a repeat call for the same message is not a
no-op — each call performs a store write and triggers the
owner-notification fan-out again (here at the concrete text post
`textPostMsg`); the claim's "no additional store write, no second
fan-out" is therefore false on the code. -/
theorem claim_C1_counterexample :
    (backupChannelPost textPostMsg).puts ≠ [] ∧
    (backupChannelPost textPostMsg).notifyRuns = 1 := by
  constructor <;> decide

/-- C1 (amended): for every channel post within the size limit whose key
is not yet in the store, calling `backupChannelPost` twice still yields
exactly one stored Backup Entry (the second write overwrites the same
key), but the second call is not a no-op: each of the two calls performs
exactly one store write and one owner-notification fan-out. -/
theorem claim_C1_idempotent_overwrite (msg : TgMessage) (st : KVStore)
    (hsize : ¬ fileSizeOf msg > 25 * 1024 * 1024)
    (habsent : countKey st (postKey msg) = 0) :
    (backupChannelPost msg).puts.length = 1 ∧
    (backupChannelPost msg).notifyRuns = 1 ∧
    countKey (applyPuts (applyPuts st (backupChannelPost msg).puts)
      (backupChannelPost msg).puts) (postKey msg) = 1 := by
  have hpost : backupChannelPost msg =
      { success := true
        puts := [(postKey msg, buildAutoEntry msg)]
        notifyRuns := 1 } := by
    rw [backupChannelPost, if_neg hsize]
  refine ⟨by rw [hpost]; rfl, by rw [hpost], ?_⟩
  rw [hpost]
  have h1 : countKey (kvPut st (postKey msg) (buildAutoEntry msg)) (postKey msg) = 1 :=
    countKey_kvPut_absent (buildAutoEntry msg) habsent
  have h2 : countKey (kvPut (kvPut st (postKey msg) (buildAutoEntry msg))
      (postKey msg) (buildAutoEntry msg)) (postKey msg) = 1 := by
    rw [countKey_kvPut_present (buildAutoEntry msg) (by rw [h1]; exact one_ne_zero), h1]
  simpa [applyPuts] using h2

/-- C1 witness: the amended theorem applied at the concrete text post
and the empty store. -/
theorem claim_C1_idempotent_overwrite_witness :
    (¬ fileSizeOf textPostMsg > 25 * 1024 * 1024) ∧
    countKey [] (postKey textPostMsg) = 0 ∧
    ((backupChannelPost textPostMsg).puts.length = 1 ∧
     (backupChannelPost textPostMsg).notifyRuns = 1 ∧
     countKey (applyPuts (applyPuts [] (backupChannelPost textPostMsg).puts)
       (backupChannelPost textPostMsg).puts) (postKey textPostMsg) = 1) :=
  ⟨by decide, by decide, claim_C1_idempotent_overwrite textPostMsg [] (by decide) (by decide)⟩

/-- C3 counterexample: the 25 MiB guard reads only
`video`/`document`/`audio` sizes, so a channel post carrying a 26 MiB
photo is not skipped: the recorder reports success and writes a Backup
Entry, refuting "any attached media (of any kind)". -/
theorem claim_C3_counterexample :
    (backupChannelPost bigPhotoMsg).success = true ∧
    (backupChannelPost bigPhotoMsg).puts.length = 1 := by
  constructor <;> decide

/-- C3 (amended): the size ceiling applies to the first truthy reported
size among the `video`, `document`, `audio` attachments only (the JS
`||` chain); when that size exceeds 25×1024×1024 bytes the recorder
writes no Backup Entry, triggers no notification fan-out and raises no
error (it returns `success := false` with reason `file_too_large`).
Oversized media of any other kind (photo, voice, video note, sticker,
animation) is not size-checked and is still recorded. -/
theorem claim_C3_size_ceiling (msg : TgMessage)
    (h : fileSizeOf msg > 25 * 1024 * 1024) :
    (backupChannelPost msg).puts = [] ∧
    (backupChannelPost msg).notifyRuns = 0 ∧
    (backupChannelPost msg).success = false ∧
    (backupChannelPost msg).reason = some "file_too_large" := by
  rw [backupChannelPost, if_pos h]
  exact ⟨rfl, rfl, rfl, rfl⟩

/-- C3 witness: the amended theorem applied at the concrete 26 MiB video
post. -/
theorem claim_C3_size_ceiling_witness :
    fileSizeOf bigVideoMsg > 25 * 1024 * 1024 ∧
    ((backupChannelPost bigVideoMsg).puts = [] ∧
     (backupChannelPost bigVideoMsg).notifyRuns = 0 ∧
     (backupChannelPost bigVideoMsg).success = false ∧
     (backupChannelPost bigVideoMsg).reason = some "file_too_large") :=
  ⟨by decide, claim_C3_size_ceiling bigVideoMsg (by decide)⟩

/-- The kind of send operation `restoreBackupWithProgress` dispatches
for an entry. -/
inductive SendKind where
  | text | photo | video | document | audio | animation | sticker
deriving DecidableEq

/-- The content-kind chain of `restoreBackupWithProgress`
(main.js:263-307): `text > photo > video > document > audio >
animation > sticker`, first truthy field wins; `voice` and `video_note`
entries are never sent. -/
def contentKind (b : BackupEntry) : Option SendKind :=
  if truthyStr b.text then some .text
  else if truthyStr b.photo then some .photo
  else if truthyStr b.video then some .video
  else if truthyStr b.document then some .document
  else if truthyStr b.audio then some .audio
  else if truthyStr b.animation then some .animation
  else if truthyStr b.sticker then some .sticker
  else none

/-- Outcome of one gateway send call: either the HTTP/JSON call throws,
or it returns a response whose `ok` flag is the given boolean. -/
inductive SendOutcome where
  | threw
  | returned (ok : Bool)
deriving DecidableEq

def outcomeThrew : SendOutcome → Bool
  | .threw => true
  | .returned _ => false

/-- One dispatched send operation (which entry, by message id, and which
gateway method kind). -/
structure SendOp where
  message_id : Nat
  kind : SendKind
deriving DecidableEq

/-- The observable state of one restore run: the two counters of
`restoreBackupWithProgress` and the ordered trace of dispatched sends. -/
structure RestoreRun where
  restored : Nat := 0
  failed : Nat := 0
  sends : List SendOp := []
deriving DecidableEq

/-- The ordering relation of `backups.sort((a, b) => a.message_id -
b.message_id)` (main.js:53). -/
def entryLE (a b : BackupEntry) : Prop := a.message_id ≤ b.message_id

instance : DecidableRel entryLE := fun a b =>
  inferInstanceAs (Decidable (a.message_id ≤ b.message_id))

instance : IsTotal BackupEntry entryLE :=
  ⟨fun a b => Nat.le_total a.message_id b.message_id⟩

instance : IsTrans BackupEntry entryLE :=
  ⟨fun _ _ _ h h' => Nat.le_trans h h'⟩

/-- `getChannelBackups` sorts the channel's stored entries ascending by
message id; JS `Array.sort` is stable, so a stable sort is the faithful
denotation. -/
def sortBackups (l : List BackupEntry) : List BackupEntry :=
  l.insertionSort entryLE

/-- The send loop of `restoreBackupWithProgress` (main.js:259-355) over
an already-sorted list, with the per-entry send outcome supplied by the
oracle `o` (keyed by message id).  Progress edits and delays are
modelled as non-throwing: the claims concern send failures. -/
def restoreLoop (o : Nat → SendOutcome) : List BackupEntry → RestoreRun → RestoreRun
  | [], r => r
  | b :: rest, r =>
    match contentKind b with
    | none => restoreLoop o rest r
    | some k =>
      match o b.message_id with
      | .threw =>
          restoreLoop o rest
            { r with failed := r.failed + 1, sends := r.sends ++ [⟨b.message_id, k⟩] }
      | .returned _ =>
          restoreLoop o rest
            { r with restored := r.restored + 1, sends := r.sends ++ [⟨b.message_id, k⟩] }

/-- `restoreBackupWithProgress` (main.js:253-358): load the channel's
entries, sort ascending by message id, then run the send loop. -/
def restoreBackupWithProgress (o : Nat → SendOutcome) (backups : List BackupEntry) : RestoreRun :=
  restoreLoop o (sortBackups backups) {}

/-- The sends a list of entries gives rise to, in list order: one per
entry with sendable content. -/
def sendsOf (l : List BackupEntry) : List SendOp :=
  l.filterMap (fun b => (contentKind b).map (fun k => ⟨b.message_id, k⟩))

lemma restoreLoop_sends (o : Nat → SendOutcome) :
    ∀ (l : List BackupEntry) (r : RestoreRun),
      (restoreLoop o l r).sends = r.sends ++ sendsOf l := by
  intro l
  induction l with
  | nil => intro r; simp [restoreLoop, sendsOf]
  | cons b rest ih =>
    intro r
    cases hk : contentKind b with
    | none => simp [restoreLoop, hk, sendsOf, List.filterMap_cons, ih]
    | some k =>
      cases ho : o b.message_id <;>
        simp [restoreLoop, hk, ho, sendsOf, List.filterMap_cons, ih]

lemma restoreLoop_restored (o : Nat → SendOutcome) :
    ∀ (l : List BackupEntry) (r : RestoreRun),
      (restoreLoop o l r).restored =
        r.restored + l.countP (fun b => (contentKind b).isSome && !outcomeThrew (o b.message_id)) := by
  intro l
  induction l with
  | nil => intro r; simp [restoreLoop]
  | cons b rest ih =>
    intro r
    cases hk : contentKind b with
    | none => simp [restoreLoop, hk, List.countP_cons, ih]
    | some k =>
      cases ho : o b.message_id <;>
        simp [restoreLoop, hk, ho, List.countP_cons, ih, outcomeThrew] <;> omega

lemma restoreLoop_failed (o : Nat → SendOutcome) :
    ∀ (l : List BackupEntry) (r : RestoreRun),
      (restoreLoop o l r).failed =
        r.failed + l.countP (fun b => (contentKind b).isSome && outcomeThrew (o b.message_id)) := by
  intro l
  induction l with
  | nil => intro r; simp [restoreLoop]
  | cons b rest ih =>
    intro r
    cases hk : contentKind b with
    | none => simp [restoreLoop, hk, List.countP_cons, ih]
    | some k =>
      cases ho : o b.message_id <;>
        simp [restoreLoop, hk, ho, List.countP_cons, ih, outcomeThrew] <;> omega

lemma sendsOf_ids_sublist (l : List BackupEntry) :
    ((sendsOf l).map SendOp.message_id).Sublist (l.map (fun b => b.message_id)) := by
  induction l with
  | nil => simp [sendsOf]
  | cons b rest ih =>
    cases hk : contentKind b with
    | none =>
      simp only [sendsOf, List.filterMap_cons, hk, List.map_cons]
      exact ih.cons _
    | some k =>
      simp only [sendsOf, List.filterMap_cons, hk, Option.map_some, List.map_cons]
      exact ih.cons₂ _

lemma pairwise_lt_sortBackups (backups : List BackupEntry)
    (hids : backups.Pairwise (fun a b => a.message_id ≠ b.message_id)) :
    (sortBackups backups).Pairwise (fun a b => a.message_id < b.message_id) := by
  have hperm : sortBackups backups |>.Perm backups :=
    List.perm_insertionSort entryLE backups
  have hne : (sortBackups backups).Pairwise (fun a b => a.message_id ≠ b.message_id) :=
    (hperm.pairwise_iff (fun h => (h ∘ Eq.symm))).mpr hids
  have hle : (sortBackups backups).Pairwise entryLE :=
    List.sorted_insertionSort entryLE backups
  exact (hle.and hne).imp (fun h => Nat.lt_of_le_of_ne h.1 h.2)

/-- C2: for every per-send outcome oracle and every stored entry set
with pairwise-distinct message ids (one entry exists per key, so ids are
distinct), the restore run dispatches its sends in strictly ascending
message-id order. -/
theorem claim_C2_order (o : Nat → SendOutcome) (backups : List BackupEntry)
    (hids : backups.Pairwise (fun a b => a.message_id ≠ b.message_id)) :
    List.Sorted (· < ·)
      (((restoreBackupWithProgress o backups).sends).map SendOp.message_id) := by
  have hsends : (restoreBackupWithProgress o backups).sends = sendsOf (sortBackups backups) := by
    simpa using restoreLoop_sends o (sortBackups backups) {}
  rw [hsends]
  have hlt := pairwise_lt_sortBackups backups hids
  have hmap : ((sortBackups backups).map (fun b => b.message_id)).Pairwise (· < ·) :=
    (List.pairwise_map).mpr hlt
  exact hmap.sublist (sendsOf_ids_sublist (sortBackups backups))

/-- Three text entries with out-of-order ids, used as the C2 witness. -/
def c2Backups : List BackupEntry :=
  [{ message_id := 3, date := 0, text := some "c" },
   { message_id := 1, date := 0, text := some "a" },
   { message_id := 2, date := 0, text := some "b" }]

/-- C2 witness: the order theorem applied at a concrete three-entry
channel with an all-succeeding gateway. -/
theorem claim_C2_order_witness :
    c2Backups.Pairwise (fun a b => a.message_id ≠ b.message_id) ∧
    List.Sorted (· < ·)
      (((restoreBackupWithProgress (fun _ => .returned true) c2Backups).sends).map
        SendOp.message_id) :=
  ⟨by decide, claim_C2_order (fun _ => .returned true) c2Backups (by decide)⟩

lemma countP_and_split {α : Type} (l : List α) (p q : α → Bool) :
    l.countP (fun a => p a && q a) + l.countP (fun a => p a && !q a) = l.countP p := by
  induction l with
  | nil => simp
  | cons a t ih =>
    cases hp : p a <;> cases hq : q a <;>
      simp [List.countP_cons, hp, hq] <;> omega

lemma countP_not_split {α : Type} (l : List α) (p : α → Bool) :
    l.countP p + l.countP (fun a => !p a) = l.length := by
  induction l with
  | nil => simp
  | cons a t ih =>
    cases hp : p a <;> simp [List.countP_cons, hp] <;> omega

/-- C4: for every outcome oracle (in particular, one where some entry's
send throws) the run still dispatches a send for every sendable entry —
the trace is the full sorted sendable list, independent of which sends
throw — and the counters satisfy `restored + failed = N - (number of
entries with no sendable content)`. -/
theorem claim_C4_failure_isolation (o : Nat → SendOutcome) (backups : List BackupEntry) :
    (restoreBackupWithProgress o backups).sends = sendsOf (sortBackups backups) ∧
    (restoreBackupWithProgress o backups).restored + (restoreBackupWithProgress o backups).failed
      = backups.length - backups.countP (fun b => (contentKind b).isNone) := by
  constructor
  · simpa using restoreLoop_sends o (sortBackups backups) {}
  · have hr : (restoreBackupWithProgress o backups).restored =
        (sortBackups backups).countP
          (fun b => (contentKind b).isSome && !outcomeThrew (o b.message_id)) := by
      simpa using restoreLoop_restored o (sortBackups backups) {}
    have hf : (restoreBackupWithProgress o backups).failed =
        (sortBackups backups).countP
          (fun b => (contentKind b).isSome && outcomeThrew (o b.message_id)) := by
      simpa using restoreLoop_failed o (sortBackups backups) {}
    rw [hr, hf]
    have hsplit := countP_and_split (sortBackups backups)
      (fun b => (contentKind b).isSome) (fun b => !outcomeThrew (o b.message_id))
    simp only [Bool.not_not] at hsplit
    rw [hsplit]
    have hperm : sortBackups backups |>.Perm backups :=
      List.perm_insertionSort entryLE backups
    rw [hperm.countP_eq]
    have hnot := countP_not_split backups (fun b => (contentKind b).isSome)
    have hnone : backups.countP (fun b => (contentKind b).isNone) =
        backups.countP (fun b => !(contentKind b).isSome) := by
      apply List.countP_congr
      intro b _
      cases contentKind b <;> simp
    omega

/-- An oracle whose gateway calls always return a response with
`ok = false` (and never throw). -/
def okFalseOutcome : Nat → SendOutcome := fun _ => .returned false

/-- A single text entry used in the C5 counterexample. -/
def textEntryOne : BackupEntry := { message_id := 1, date := 0, text := some "a" }

/-- C5 counterexample: `restoreBackupWithProgress` never reads the `ok`
flag of a send response (main.js:263-307), so a send whose response has
`ok = false` is counted as restored, not as failed — the claim's
"increments the failure count for that entry (not the restored count)"
is false on the code. -/
theorem claim_C5_counterexample :
    (restoreBackupWithProgress okFalseOutcome [textEntryOne]).restored = 1 ∧
    (restoreBackupWithProgress okFalseOutcome [textEntryOne]).failed = 0 := by
  constructor <;> decide

/-- C5 (amended): the loop continues after every send and never raises,
but the `ok` flag of a gateway response is ignored: `restored` counts
every attempted send whose call returned (with `ok` true or false
alike), and `failed` counts exactly the sends that threw; the trace
always covers all sendable entries. -/
theorem claim_C5_ok_false_counted_restored (o : Nat → SendOutcome)
    (backups : List BackupEntry) :
    (restoreBackupWithProgress o backups).restored =
      (sortBackups backups).countP
        (fun b => (contentKind b).isSome && !outcomeThrew (o b.message_id)) ∧
    (restoreBackupWithProgress o backups).failed =
      (sortBackups backups).countP
        (fun b => (contentKind b).isSome && outcomeThrew (o b.message_id)) ∧
    (restoreBackupWithProgress o backups).sends = sendsOf (sortBackups backups) := by
  refine ⟨?_, ?_, ?_⟩
  · simpa using restoreLoop_restored o (sortBackups backups) {}
  · simpa using restoreLoop_failed o (sortBackups backups) {}
  · simpa using restoreLoop_sends o (sortBackups backups) {}

/-- The running state of the discovery loop of `backupExistingMessages`
(main.js:160-250, 360-384): the three counters, the
consecutive-failure counter, the ids whose entries were written, the set
of backed-up ids visible to `isMessageBackedUp`, the scanned candidate
ids, and the gateway trace of successfully forwarded probe copies and
of `deleteMessage` calls on them. -/
structure ScanState where
  saved : Nat := 0
  skipped : Nat := 0
  scanned : Nat := 0
  cf : Nat := 0
  savedIds : List Nat := []
  backedUp : List Nat := []
  scannedIds : List Nat := []
  forwards : List Nat := []
  deletions : List Nat := []
deriving DecidableEq

/-- `maxConsecutiveFailures` (main.js:161). -/
def maxConsecutiveFailures : Nat := 50

/-- The scan loop `for (let msgId = latestMessageId; msgId > 0 &&
consecutiveFailures < maxConsecutiveFailures; msgId--)`, with the
forward probe's success supplied by `probe` and the forwarded copy's
message id by `copyId`.  On probe success the failure counter resets;
an already-backed-up id is skipped after deleting the forwarded copy;
otherwise the entry is saved and the copy deleted.  On probe failure the
failure counter increments. -/
def scanFrom (probe : Nat → Bool) (copyId : Nat → Nat) : Nat → ScanState → ScanState
  | 0, st => st
  | m + 1, st =>
    if maxConsecutiveFailures ≤ st.cf then st
    else
      let st1 := { st with scanned := st.scanned + 1, scannedIds := st.scannedIds ++ [m + 1] }
      if probe (m + 1) then
        if (m + 1) ∈ st1.backedUp then
          scanFrom probe copyId m
            { st1 with cf := 0, skipped := st1.skipped + 1
                       forwards := st1.forwards ++ [copyId (m + 1)]
                       deletions := st1.deletions ++ [copyId (m + 1)] }
        else
          scanFrom probe copyId m
            { st1 with cf := 0, saved := st1.saved + 1
                       savedIds := st1.savedIds ++ [m + 1]
                       backedUp := (m + 1) :: st1.backedUp
                       forwards := st1.forwards ++ [copyId (m + 1)]
                       deletions := st1.deletions ++ [copyId (m + 1)] }
      else
        scanFrom probe copyId m { st1 with cf := st.cf + 1 }

/-- The hard-coded upper-bound estimate of `backupExistingMessages`
(main.js:133, 142): 10000 when `getChat` succeeds, else the initial
1000. -/
def discoveryUpperBound (chatInfoOk : Bool) : Nat :=
  if chatInfoOk then 10000 else 1000

/-- The discovery pass of `backupExistingMessages`: run the scan loop
downward from the estimated upper bound, starting with zero counters and
the channel's already-backed-up ids. -/
def discoveryScan (chatInfoOk : Bool) (probe : Nat → Bool) (copyId : Nat → Nat)
    (initialBacked : List Nat) : ScanState :=
  scanFrom probe copyId (discoveryUpperBound chatInfoOk) { backedUp := initialBacked }

lemma scanFrom_const_false (copyId : Nat → Nat) :
    ∀ (m : Nat) (st : ScanState),
      (scanFrom (fun _ => false) copyId m st).saved = st.saved ∧
      (scanFrom (fun _ => false) copyId m st).scanned =
        st.scanned + min m (maxConsecutiveFailures - st.cf) ∧
      (scanFrom (fun _ => false) copyId m st).cf =
        st.cf + min m (maxConsecutiveFailures - st.cf) ∧
      (scanFrom (fun _ => false) copyId m st).scannedIds.all (fun id => decide (1 ≤ id)) =
        st.scannedIds.all (fun id => decide (1 ≤ id)) := by
  intro m
  induction m with
  | zero =>
    intro st
    simp [scanFrom, maxConsecutiveFailures]
  | succ n ih =>
    intro st
    by_cases hcf : maxConsecutiveFailures ≤ st.cf
    · rw [maxConsecutiveFailures] at hcf
      simp [scanFrom, maxConsecutiveFailures, hcf]
    · rw [maxConsecutiveFailures] at hcf
      push_neg at hcf
      have hrec := ih { st with scanned := st.scanned + 1
                                scannedIds := st.scannedIds ++ [n + 1]
                                cf := st.cf + 1 }
      rw [scanFrom]
      rw [if_neg (by rw [maxConsecutiveFailures]; omega)]
      simp only [if_neg Bool.false_ne_true] at hrec ⊢
      refine ⟨?_, ?_, ?_, ?_⟩
      · exact hrec.1
      · rw [hrec.2.1]
        simp [maxConsecutiveFailures]
        omega
      · rw [hrec.2.2.1]
        simp [maxConsecutiveFailures]
        omega
      · rw [hrec.2.2.2]
        simp

/-- C6: with a probe that always fails, the discovery scan stops after
exactly 50 consecutive failures — 50 candidates scanned, the failure
counter at the 50 cutoff, nothing saved — and every scanned candidate id
is at least 1 (the loop condition `msgId > 0` never lets the scan reach
or pass id 0), for either value of the `getChat`-dependent upper bound. -/
theorem claim_C6_termination (chatInfoOk : Bool) (copyId : Nat → Nat)
    (initialBacked : List Nat) :
    (discoveryScan chatInfoOk (fun _ => false) copyId initialBacked).scanned = 50 ∧
    (discoveryScan chatInfoOk (fun _ => false) copyId initialBacked).cf =
      maxConsecutiveFailures ∧
    (discoveryScan chatInfoOk (fun _ => false) copyId initialBacked).saved = 0 ∧
    (discoveryScan chatInfoOk (fun _ => false) copyId initialBacked).scannedIds.all
      (fun id => decide (1 ≤ id)) = true := by
  have h := scanFrom_const_false copyId (discoveryUpperBound chatInfoOk)
    { backedUp := initialBacked }
  rw [discoveryScan]
  cases chatInfoOk <;>
    simp [discoveryUpperBound, maxConsecutiveFailures] at h ⊢ <;>
    exact ⟨h.2.1, h.2.2.1, h.1, h.2.2.2⟩

/-- The probe of the C7 scenario: forwarding succeeds exactly for
message ids 50, 49, 48. -/
def scenarioProbe : Nat → Bool := fun id => decide (48 ≤ id) && decide (id ≤ 50)

/-- A concrete forwarded-copy id assignment for the C7 runs. -/
def scenarioCopyId : Nat → Nat := fun id => id + 100000

lemma scanFrom_del_eq_fwd (probe : Nat → Bool) (copyId : Nat → Nat) :
    ∀ (m : Nat) (st : ScanState), st.deletions = st.forwards →
      (scanFrom probe copyId m st).deletions = (scanFrom probe copyId m st).forwards := by
  intro m
  induction m with
  | zero => intro st h; simpa [scanFrom] using h
  | succ n ih =>
    intro st h
    rw [scanFrom]
    by_cases hcf : maxConsecutiveFailures ≤ st.cf
    · simpa [hcf] using h
    · rw [if_neg hcf]
      cases hp : probe (n + 1) with
      | false =>
        simp only [hp, Bool.false_eq_true, if_false]
        exact ih _ h
      | true =>
        simp only [hp, if_true]
        by_cases hb : (n + 1) ∈ st.backedUp
        · rw [if_pos (by simpa using hb)]
          exact ih _ (by simp [h])
        · rw [if_neg (by simpa using hb)]
          exact ih _ (by simp [h])

/-- C7 counterexample: with the code's hard-coded upper bound (10000
once `getChat` succeeds), a probe that succeeds exactly at ids
{50, 49, 48} and fails everywhere else meets 50 consecutive failures at
candidates 10000..9951, so discovery ends with savedCount 0 and
scannedCount 50 and writes no Backup Entry — not the claimed 3 entries,
savedCount 3, scannedCount 51. -/
theorem claim_C7_counterexample :
    (discoveryScan true scenarioProbe scenarioCopyId []).saved = 0 ∧
    (discoveryScan true scenarioProbe scenarioCopyId []).scanned = 50 ∧
    (discoveryScan true scenarioProbe scenarioCopyId []).savedIds = [] := by
  refine ⟨?_, ?_, ?_⟩ <;> decide

/-- C7 (amended): the scenario's expected figures hold only if the scan
starts at 51 rather than at the code's upper bound: from 51 the loop
saves exactly ids 50, 49, 48 (savedCount 3, scannedCount 51, reaching
id 1 with no failure run of 50); from the code's bound 10000 it saves
nothing (savedCount 0, scannedCount 50).  The no-stray-copies clause
does hold: every successfully forwarded probe copy is deleted — in the
scenario runs the deletion trace equals the forward trace, including
when an id is already backed up (pre-backed id 49 is skipped yet its
copy is still deleted), and in general every discovery run deletes
exactly the copies it forwards. -/
theorem claim_C7_scenario :
    ((scanFrom scenarioProbe scenarioCopyId 51 {}).saved = 3 ∧
     (scanFrom scenarioProbe scenarioCopyId 51 {}).scanned = 51 ∧
     (scanFrom scenarioProbe scenarioCopyId 51 {}).savedIds = [50, 49, 48] ∧
     (scanFrom scenarioProbe scenarioCopyId 51 {}).deletions =
       (scanFrom scenarioProbe scenarioCopyId 51 {}).forwards) ∧
    ((scanFrom scenarioProbe scenarioCopyId 51 { backedUp := [49] }).saved = 2 ∧
     (scanFrom scenarioProbe scenarioCopyId 51 { backedUp := [49] }).skipped = 1 ∧
     (scanFrom scenarioProbe scenarioCopyId 51 { backedUp := [49] }).deletions =
       (scanFrom scenarioProbe scenarioCopyId 51 { backedUp := [49] }).forwards) ∧
    ((discoveryScan true scenarioProbe scenarioCopyId []).saved = 0 ∧
     (discoveryScan true scenarioProbe scenarioCopyId []).scanned = 50) ∧
    (∀ (chatInfoOk : Bool) (probe : Nat → Bool) (copyId : Nat → Nat)
        (initialBacked : List Nat),
       (discoveryScan chatInfoOk probe copyId initialBacked).deletions =
         (discoveryScan chatInfoOk probe copyId initialBacked).forwards) := by
  refine ⟨by decide, by decide, by constructor <;> decide, ?_⟩
  intro chatInfoOk probe copyId initialBacked
  exact scanFrom_del_eq_fwd probe copyId (discoveryUpperBound chatInfoOk)
    { backedUp := initialBacked } rfl

/-- Outcome of one `getChat` gateway call: the transport either throws
or returns a response with the given `ok` flag. -/
inductive ChatLookup where
  | threw
  | returned (ok : Bool)
deriving DecidableEq

/-- The environment of the `waiting_target` branch of `handleUpdate`
(main.js:781-874): the result of `resolveChannelId` on the user's text,
the two `getChat` outcomes, the number of stored backups of the chosen
source, and whether any later call inside the `try` block throws. -/
structure TargetFlowEnv where
  resolvedTarget : Option String
  sourceChat : ChatLookup
  targetChat : ChatLookup
  backupCount : Nat
  laterThrows : Bool
deriving DecidableEq

/-- What the branch did to the per-user workflow slots and whether a
restore was started. -/
structure TargetFlowResult where
  stateCleared : Bool
  tempCleared : Bool
  restoreStarted : Bool
deriving DecidableEq

/-- The `waiting_target` branch of `handleUpdate` (main.js:781-874).
Invalid target reference: reply and return, slots untouched.  Inside the
`try`: a throw from either `getChat` lands in the `catch`, which clears
both slots; a returned response with `ok = false` on either chat replies
and returns with the slots untouched; zero backups clears and returns;
otherwise the restore is started and the slots are cleared (a later
throw also reaches the `catch`, which clears). -/
def handleWaitingTarget (e : TargetFlowEnv) : TargetFlowResult :=
  match e.resolvedTarget with
  | none => { stateCleared := false, tempCleared := false, restoreStarted := false }
  | some _ =>
    match e.sourceChat with
    | .threw => { stateCleared := true, tempCleared := true, restoreStarted := false }
    | .returned sok =>
      match e.targetChat with
      | .threw => { stateCleared := true, tempCleared := true, restoreStarted := false }
      | .returned tok =>
        if !(sok && tok) then
          { stateCleared := false, tempCleared := false, restoreStarted := false }
        else if e.backupCount = 0 then
          { stateCleared := true, tempCleared := true, restoreStarted := false }
        else if e.laterThrows then
          { stateCleared := true, tempCleared := true, restoreStarted := false }
        else
          { stateCleared := true, tempCleared := true, restoreStarted := true }

/-- C8 counterexample: when the user's destination reference does not
resolve (e.g. text "abc"), the handler replies and returns without
deleting `restore_state` or `restore_temp:source`; likewise when a
`getChat` returns `ok = false`.  Both read the slot yet leave it set,
refuting "cleared unconditionally ... on every failure path". -/
theorem claim_C8_counterexample :
    (handleWaitingTarget
      { resolvedTarget := none, sourceChat := .returned true,
        targetChat := .returned true, backupCount := 5,
        laterThrows := false }).stateCleared = false ∧
    (handleWaitingTarget
      { resolvedTarget := none, sourceChat := .returned true,
        targetChat := .returned true, backupCount := 5,
        laterThrows := false }).tempCleared = false ∧
    (handleWaitingTarget
      { resolvedTarget := some "-100999", sourceChat := .returned false,
        targetChat := .returned true, backupCount := 5,
        laterThrows := false }).stateCleared = false ∧
    (handleWaitingTarget
      { resolvedTarget := some "-100999", sourceChat := .returned false,
        targetChat := .returned true, backupCount := 5,
        laterThrows := false }).tempCleared = false := by
  refine ⟨?_, ?_, ?_, ?_⟩ <;> decide

/-- C8 (amended): the two slots are always cleared or kept together, and
they are cleared exactly when the destination reference resolves and
either `getChat` call throws or both chats come back with `ok = true`
(success, no-backups and thrown-exception paths all clear); they are NOT
cleared on the invalid-channel-reference path nor on the
inaccessible-chat (`ok = false`) path, where the user stays in
`waiting_target`. -/
theorem claim_C8_slot_clearing (e : TargetFlowEnv) :
    (handleWaitingTarget e).tempCleared = (handleWaitingTarget e).stateCleared ∧
    ((handleWaitingTarget e).stateCleared = true ↔
      (e.resolvedTarget.isSome = true ∧
        (e.sourceChat = .threw ∨ e.targetChat = .threw ∨
          (e.sourceChat = .returned true ∧ e.targetChat = .returned true)))) := by
  obtain ⟨t, s, tc, n, lt⟩ := e
  cases t <;> cases s <;> cases tc <;>
    simp [handleWaitingTarget] <;>
    (rename_i sok tok
     cases sok <;> cases tok <;>
       by_cases hn : n = 0 <;> cases lt <;>
         simp [hn])

/-- One registered channel of a user record (main.js:967-972). -/
structure Channel where
  id : Int
  title : String
  username : Option String := none
  added_at : Nat := 0
deriving DecidableEq

/-- A user record; only the channel list matters to the handlers
modelled here. -/
structure UserData where
  channels : List Channel := []
deriving DecidableEq

/-- A value stored in the key-value namespace. -/
inductive StoreVal where
  | userV (d : UserData)
  | backupV (b : BackupEntry)
  | strV (s : String)
deriving DecidableEq

/-- The full keyspace as a map. -/
def FullStore := Key → Option StoreVal

/-- `getUserData` (main.js:24-27): parse the stored record or fall back
to the empty default. -/
def getUserDataS (st : FullStore) (uid : String) : UserData :=
  match st (Key.user uid) with
  | some (.userV d) => d
  | _ => {}

/-- The `/removechannel` handler's store effect (main.js:1046-1063):
look up the user, find the channel index with `findIndex`, and if found
`splice` it out and write the user record back; nothing else in the
store is touched and no `DB.delete` is issued. -/
def jsFindIndex (p : Channel → Bool) : List Channel → Option Nat
  | [] => none
  | a :: t => if p a then some 0 else (jsFindIndex p t).map (· + 1)

def removeChannelCmd (st : FullStore) (uid : String) (channelId : Int) :
    FullStore × Bool :=
  let d := getUserDataS st uid
  match jsFindIndex (fun ch => decide (ch.id = channelId)) d.channels with
  | none => (st, false)
  | some i =>
      (fun k => if k = Key.user uid
                then some (.userV { channels := d.channels.eraseIdx i })
                else st k,
       true)

/-- The complete list of keys any command handler of `handleUpdate` ever
passes to `DB.delete` (main.js:809-810, 860-861, 869-870, 1283): the
restore-flow slots and the manual-backup armed-channel key of the
issuing user. -/
def deleteCallKeys (uid : String) : List Key :=
  [Key.restoreState uid, Key.restoreTemp uid, Key.manualBackup uid]

def isBackupKey : Key → Bool
  | .backup _ _ => true
  | _ => false

lemma jsFindIndex_none_eraseP (p : Channel → Bool) :
    ∀ l : List Channel, jsFindIndex p l = none → l.eraseP p = l := by
  intro l
  induction l with
  | nil => intro h; rfl
  | cons a t ih =>
    intro h
    rw [jsFindIndex] at h
    cases hp : p a
    · simp only [hp, Bool.false_eq_true, if_false] at h
      cases ht : jsFindIndex p t with
      | some j => rw [ht] at h; simp at h
      | none =>
        rw [List.eraseP_cons, hp]
        simp only [cond_false]
        rw [ih ht]
    · rw [hp] at h
      simp at h

lemma jsFindIndex_some_eraseP (p : Channel → Bool) :
    ∀ (l : List Channel) (i : Nat), jsFindIndex p l = some i → l.eraseIdx i = l.eraseP p := by
  intro l
  induction l with
  | nil => intro i h; simp [jsFindIndex] at h
  | cons a t ih =>
    intro i h
    rw [jsFindIndex] at h
    cases hp : p a
    · simp only [hp, Bool.false_eq_true, if_false] at h
      cases ht : jsFindIndex p t with
      | none => rw [ht] at h; simp at h
      | some j =>
        rw [ht] at h
        simp at h
        subst h
        rw [List.eraseP_cons, hp]
        simp only [cond_false, List.eraseIdx_cons_succ]
        rw [ih j ht]
    · simp only [hp, if_true, Option.some.injEq] at h
      subst h
      rw [List.eraseP_cons, hp]
      simp

/-- C9: removing a channel leaves every Backup Entry untouched (the
handler rewrites only the issuing user's record, whose channel list
loses exactly the first entry matching the channel id), and no command
handler ever deletes a key of the backup keyspace: every key passed to
`DB.delete` is a restore-flow or manual-backup key. -/
theorem claim_C9_removechannel_frame (st : FullStore) (uid : String) (channelId : Int) :
    (∀ (cid : Int) (mid : Nat),
      (removeChannelCmd st uid channelId).1 (Key.backup cid mid) =
        st (Key.backup cid mid)) ∧
    (getUserDataS (removeChannelCmd st uid channelId).1 uid).channels =
      ((getUserDataS st uid).channels).eraseP (fun ch => decide (ch.id = channelId)) ∧
    (∀ u : String, (deleteCallKeys u).all (fun k => !isBackupKey k) = true) := by
  refine ⟨?_, ?_, ?_⟩
  · intro cid mid
    cases hf : jsFindIndex (fun ch => decide (ch.id = channelId))
        (getUserDataS st uid).channels with
    | none => simp [removeChannelCmd, hf]
    | some i => simp [removeChannelCmd, hf]
  · cases hf : jsFindIndex (fun ch => decide (ch.id = channelId))
        (getUserDataS st uid).channels with
    | none =>
      simp only [removeChannelCmd, hf]
      exact (jsFindIndex_none_eraseP _ _ hf).symm
    | some i =>
      simp only [removeChannelCmd, hf]
      have hupd : getUserDataS
          (fun k => if k = Key.user uid
                    then some (.userV { channels := (getUserDataS st uid).channels.eraseIdx i })
                    else st k) uid =
          { channels := (getUserDataS st uid).channels.eraseIdx i } := by
        simp [getUserDataS]
      rw [hupd]
      exact jsFindIndex_some_eraseP _ _ i hf
  · intro u
    rfl

/-- JS `array.slice(-count)` (main.js:59): for a positive count it keeps
the last `min count length` elements, but `slice(-0)` is `slice(0)`,
which returns the whole array. -/
def jsSliceLast (xs : List BackupEntry) (n : Nat) : List BackupEntry :=
  if n = 0 then xs else xs.drop (xs.length - n)

/-- `getLastBackups` (main.js:57-60): sort the channel's entries
ascending by message id and take the last `count`. -/
def getLastBackups (l : List BackupEntry) (n : Nat) : List BackupEntry :=
  jsSliceLast (sortBackups l) n

/-- A single stored entry used in the C10 counterexample. -/
def c10SingleEntry : BackupEntry := { message_id := 10, date := 0, text := some "x" }

/-- C10 counterexample: at `n = 0` the claim demands `min 0 total = 0`
entries, but `allBackups.slice(-0)` is `allBackups.slice(0)` — the whole
list: on a channel with one stored entry the query returns 1 entry. -/
theorem claim_C10_counterexample :
    (getLastBackups [c10SingleEntry] 0).length = 1 := by decide

/-- C10 (amended): for every `n ≥ 1` (the `/trust` command uses
`n = 50`) the query returns exactly `min n total` entries — the suffix
of the ascending-sorted list, i.e. the entries with the `n` largest
message ids, in strictly ascending message-id order (ids are pairwise
distinct, one entry per key); every entry left out has a smaller
message id than every entry returned.  For `n = 0` the query instead
returns all of the channel's entries. -/
theorem claim_C10_last_backups (l : List BackupEntry) (n : Nat) (hn : 1 ≤ n)
    (hids : l.Pairwise (fun a b => a.message_id ≠ b.message_id)) :
    (getLastBackups l n).length = min n l.length ∧
    List.Sorted (fun a b => a.message_id < b.message_id) (getLastBackups l n) ∧
    ∀ a ∈ (sortBackups l).take ((sortBackups l).length - n),
      ∀ b ∈ getLastBackups l n, a.message_id < b.message_id := by
  have hne : n ≠ 0 := by omega
  have hdef : getLastBackups l n = (sortBackups l).drop ((sortBackups l).length - n) := by
    rw [getLastBackups, jsSliceLast, if_neg hne]
  have hlen : (sortBackups l).length = l.length :=
    (List.perm_insertionSort entryLE l).length_eq
  have hlt := pairwise_lt_sortBackups l hids
  refine ⟨?_, ?_, ?_⟩
  · rw [hdef, List.length_drop, hlen]
    omega
  · rw [hdef]
    exact hlt.sublist (List.drop_sublist _ _)
  · intro a ha b hb
    rw [hdef] at hb
    have hpw : List.Pairwise (fun x y => x.message_id < y.message_id)
        ((sortBackups l).take ((sortBackups l).length - n) ++
         (sortBackups l).drop ((sortBackups l).length - n)) := by
      rw [List.take_append_drop]
      exact hlt
    exact (List.pairwise_append.mp hpw).2.2 a ha b hb

/-- Two stored entries used in the C10 witness. -/
def c10Backups : List BackupEntry :=
  [{ message_id := 2, date := 0, text := some "b" },
   { message_id := 1, date := 0, text := some "a" }]

/-- C10 witness: the amended theorem applied at a two-entry channel with
`n = 1`. -/
theorem claim_C10_last_backups_witness :
    1 ≤ 1 ∧
    c10Backups.Pairwise (fun a b => a.message_id ≠ b.message_id) ∧
    ((getLastBackups c10Backups 1).length = min 1 c10Backups.length ∧
     List.Sorted (fun a b => a.message_id < b.message_id) (getLastBackups c10Backups 1) ∧
     ∀ a ∈ (sortBackups c10Backups).take ((sortBackups c10Backups).length - 1),
       ∀ b ∈ getLastBackups c10Backups 1, a.message_id < b.message_id) :=
  ⟨le_refl 1, by decide, claim_C10_last_backups c10Backups 1 (le_refl 1) (by decide)⟩
